import Mathlib

/-!
Verification of the bahamut API framework core: the response-shaping and
error paths of the handler shell, the relationship gate on the HTTP and
WebSocket paths, the push-server session registry, the processor registry
and the NATS publish guards, embedded shallowly from the Go sources.
-/

set_option autoImplicit false

namespace Bahamut

/-- An elemental identity: a Name (singular) and a Category (plural). -/
structure Identity where
  name : String
  category : String
  deriving Repr, DecidableEq

/-- The reserved root identity anchoring the hierarchy. -/
def rootIdentity : Identity := ⟨"root", "root"⟩

/-- elemental's emptiness test on identities. -/
def Identity.isEmpty (i : Identity) : Bool :=
  i.name == "" && i.category == ""

/-- The seven CRUD-shaped operations. -/
inductive Operation where
  | retrieveMany
  | retrieve
  | create
  | update
  | delete
  | info
  | patch
  deriving Repr, DecidableEq

/-- The request fields consumed by the handler shell: target identity,
parent identity, operation kind, multi-valued headers and model version. -/
structure Request where
  identity : Identity
  parentIdentity : Identity
  operation : Operation
  headers : List (String × List String)
  version : Nat
  deriving Repr, DecidableEq

/-- Multi-valued header lookup, as `Headers[key]` on a Go `http.Header`. -/
def headerValues (req : Request) (key : String) : List String :=
  match req.headers.lookup key with
  | some vs => vs
  | none => []

/-- The response fields the handler shell writes: status code, total count,
user messages, redirect URL and the encoded body. -/
structure Response where
  statusCode : Nat
  total : Nat
  messages : List String
  redirect : String
  data : String
  deriving Repr, DecidableEq

/-- `elemental.NewResponse`: a zeroed response bound to the request. -/
def newResponse : Response := ⟨0, 0, [], "", ""⟩

/-- An elemental error, in the argument order of `elemental.NewError`. -/
structure ElementalError where
  title : String
  description : String
  subject : String
  code : Nat
  deriving Repr, DecidableEq

/-- The Go `Error()` string of an elemental error. -/
def ElementalError.errString (e : ElementalError) : String :=
  "error " ++ toString e.code ++ " (" ++ e.subject ++ "): " ++ e.title ++ ": " ++ e.description

/-- Modelled from the spec: the elemental JSON encoding of one error object
(`\x7bcode, data, description, subject, title, trace\x7d`, §6 wire
conventions) with no active trace span, so the trace field is "unknown";
the elemental encoder is library code not under src/. The fixtures in
handlers_test.go pin this shape. -/
def encodeError (e : ElementalError) : String :=
  "\x7b\"code\":" ++ toString e.code ++ ",\"data\":null,\"description\":\"" ++
    e.description ++ "\",\"subject\":\"" ++ e.subject ++ "\",\"title\":\"" ++
    e.title ++ "\",\"trace\":\"unknown\"\x7d"

/-- Non-2xx bodies carry a JSON array of error objects. -/
def encodeErrorList (es : List ElementalError) : String :=
  "[" ++ String.intercalate "," (es.map encodeError) ++ "]"

/-- `elemental.Errors.Code`: the status code carried by an error list. -/
def errorsCode : List ElementalError → Nat
  | [] => 0
  | e :: _ => e.code

/-- Errors crossing the dispatcher boundary, as Go error values: the two
context sentinel errors, elemental error lists, and plain errors. -/
inductive GoError where
  | contextCanceled
  | contextDeadlineExceeded
  | elem (errs : List ElementalError)
  | plain (msg : String)
  deriving Repr, DecidableEq

/-- Modelled from the spec: `processError` (not under src/) wraps dispatcher
errors into the §7 taxonomy — elemental errors pass through, a deadline
exceeded becomes a 408 Timeout, any unclassified error becomes a 500
Internal Server Error (fixture: TestHandlers_makeErrorResponse shows the
500/"elemental" shape for a plain error). -/
def processError : GoError → List ElementalError
  | .contextCanceled => [⟨"Internal Server Error", "context canceled", "elemental", 500⟩]
  | .contextDeadlineExceeded => [⟨"Timeout", "context deadline exceeded", "bahamut", 408⟩]
  | .elem errs => errs
  | .plain msg => [⟨"Internal Server Error", msg, "elemental", 500⟩]

/-- `makeErrorResponse` from src/unnamed/part_002 lines 99-113: a plain
context cancellation yields no response at all; otherwise the error is
processed, the status code set and the error list encoded as the body. -/
def makeErrorResponse (err : GoError) (response : Response) : Option Response :=
  if err = GoError.contextCanceled then
    none
  else
    let outError := processError err
    some { response with statusCode := errorsCode outError, data := encodeErrorList outError }

/-- Modelled from the spec: a testmodel.List object restricted to the
attributes the fixtures exercise (ID, name, description); each field is
optional so the same shape serves full and sparse objects. The elemental
test model and its marshalling are library code not under src/. -/
structure SparseList where
  id : Option String
  name : Option String
  description : Option String
  deriving Repr, DecidableEq

/-- Modelled from the spec: `ToSparse` keeps exactly the requested
attributes (§4.2 sparse projection). -/
def SparseList.toSparse (s : SparseList) (requested : List String) : SparseList :=
  ⟨if requested.contains "ID" then s.id else none,
   if requested.contains "name" then s.name else none,
   if requested.contains "description" then s.description else none⟩

/-- The attribute names present on the object, in serialization order. -/
def SparseList.keys (s : SparseList) : List String :=
  (if s.id.isSome then ["ID"] else []) ++
  (if s.name.isSome then ["name"] else []) ++
  (if s.description.isSome then ["description"] else [])

/-- Modelled from the spec: JSON encoding of a (sparse) list object, keys in
the fixtures' order ID, name, description. -/
def encodeSparseList (s : SparseList) : String :=
  let fs :=
    (match s.id with | some v => ["\"ID\":\"" ++ v ++ "\""] | none => []) ++
    (match s.name with | some v => ["\"name\":\"" ++ v ++ "\""] | none => []) ++
    (match s.description with | some v => ["\"description\":\"" ++ v ++ "\""] | none => [])
  "\x7b" ++ String.intercalate "," fs ++ "\x7d"

/-- `ctx.outputData`: a single identifiable, a list of identifiables, or
data the encoder cannot marshal (testmodel.UnmarshalableList). -/
inductive OutputData where
  | single (l : SparseList)
  | list (ls : List SparseList)
  | unencodable
  deriving Repr, DecidableEq

/-- The X-Fields projection step of makeResponse: identifiables are
projected, anything else is left alone. -/
def sparsifyOutput (requested : List String) : OutputData → OutputData
  | .single l => .single (l.toSparse requested)
  | .list ls => .list (ls.map (fun l => l.toSparse requested))
  | .unencodable => .unencodable

/-- Modelled from the spec: `Response.Encode` on the output data; the
unencodable fixture fails. -/
def encodeOutputData : OutputData → Option String
  | .single l => some (encodeSparseList l)
  | .list ls => some ("[" ++ String.intercalate "," (ls.map encodeSparseList) ++ "]")
  | .unencodable => none

/-- The per-request bcontext fields consumed by response shaping. -/
structure BContext where
  request : Request
  statusCode : Nat
  count : Nat
  messages : List String
  outputData : Option OutputData
  redirect : String

/-- A trace cleaner: identity-aware redactor of an encoded body. -/
abbrev TraceCleaner : Type := Identity → String → String

/-- A key/value pair logged on the active trace span. -/
abbrev LogField : Type := String × String

/-- Rendering of a message list for the span's messages field. -/
def renderStringList (xs : List String) : String :=
  "[" ++ String.intercalate "," (xs.map (fun s => "\"" ++ s ++ "\"")) ++ "]"

/-- `makeResponse` from src/unnamed/part_002 lines 26-97. The returned field
list is what the deferred block logs on the active trace span (the redirect
path returns before the defer is installed and logs nothing); a failing
encode is the Go panic, modelled as `Except.error`. The secret-attribute
reset is a no-op on the modelled attributes. -/
def makeResponse (ctx : BContext) (response : Response) (cleaner : Option TraceCleaner) :
    Except String (Response × List LogField) :=
  if ctx.redirect ≠ "" then
    .ok ({ response with redirect := ctx.redirect }, [])
  else
    let r1 : Response := { response with statusCode :=
      if ctx.statusCode = 0 then
        match ctx.request.operation with
        | Operation.create => 201
        | Operation.info => 204
        | _ => 200
      else ctx.statusCode }
    let isListOp : Bool :=
      ctx.request.operation == Operation.retrieveMany || ctx.request.operation == Operation.info
    let r2 := if isListOp then { r1 with total := ctx.count } else r1
    let f2 : List LogField := if isListOp then [("count-total", toString ctx.count)] else []
    let r3 := if ctx.messages.length > 0 then { r2 with messages := ctx.messages } else r2
    let f3 := if ctx.messages.length > 0 then
        f2 ++ [("messages", renderStringList ctx.messages)]
      else f2
    match ctx.outputData with
    | none => .ok ({ r3 with statusCode := 204 }, f3)
    | some od0 =>
      let requested := headerValues ctx.request "X-Fields"
      let od := if requested.length > 0 then sparsifyOutput requested od0 else od0
      match encodeOutputData od with
      | none => .error "unable to encode output data"
      | some body =>
        let cleaned := match cleaner with
          | some c => c ctx.request.identity body
          | none => body
        .ok ({ r3 with data := body }, f3 ++ [("response", cleaned)])

/-- Outcome of the race inside runDispatcher between Context cancellation
and the dispatcher goroutine: either ctx.Done() fires first carrying
ctx.Err(), or the dispatcher completes first with its error (none on
success); when cancellation wins the goroutine's result is never read. -/
inductive DispatcherRace where
  | cancelledFirst (cause : GoError)
  | completedFirst (result : Option GoError)

/-- `runDispatcher` from src/unnamed/part_002 lines 122-146, parameterized
by the race outcome; the span field list of makeResponse is dropped since
the caller only consumes the response. -/
def runDispatcher (ctx : BContext) (r : Response) (race : DispatcherRace)
    (cleaner : Option TraceCleaner) : Except String (Option Response) :=
  match race with
  | .cancelledFirst cause => .ok (makeErrorResponse cause r)
  | .completedFirst (some err) => .ok (makeErrorResponse err r)
  | .completedFirst none => (makeResponse ctx r cleaner).map (fun p => some p.1)

/-- Modelled from the spec: `handleRecoveredPanic` (not under src/) converts
a recovered panic value into a 500 error whose description is the string
form of the value; with panic recovery disabled it panics again, the panic
escaping the task (modelled as `Except.error` carrying the value). -/
def handleRecoveredPanic (recovered : Option String) (disablePanicRecovery : Bool) :
    Except String (Option ElementalError) :=
  match recovered with
  | none => .ok none
  | some v =>
    if disablePanicRecovery then .error v
    else .ok (some ⟨"Internal Server Error", v, "bahamut", 500⟩)

/-- `handleEventualPanic` from src/unnamed/part_002 lines 115-120: a non-nil
recovered error is sent on the channel (the `some` payload); a nil one
sends nothing. -/
def handleEventualPanic (recovered : Option String) (disablePanicRecovery : Bool) :
    Except String (Option ElementalError) :=
  handleRecoveredPanic recovered disablePanicRecovery

/-- Modelled from the spec: the relationship registry (elemental library
code, not under src/) — per model version, a map from (operation, child,
parent) to permitted/forbidden. -/
abbrev RelationshipsRegistry : Type := Operation → Identity → Identity → Bool

/-- `elemental.IsOperationAllowed`, the registry query of the 2019 HTTP
handlers. -/
def isOperationAllowed (reg : RelationshipsRegistry) (i p : Identity) (op : Operation) : Bool :=
  reg op i p

/-- What a handler shell does after the relationship gate: either it
returns the 405 error response without ever invoking the dispatcher
closure, or it hands over to runDispatcher. -/
inductive HandlerStep where
  | notAllowed (r : Option Response)
  | dispatch
  deriving DecidableEq

/-- The relationship gate of `handleRetrieveMany`, src/unnamed/part_002
lines 148-186. -/
def handleRetrieveMany (reg : RelationshipsRegistry) (req : Request) : HandlerStep :=
  if !(isOperationAllowed reg req.identity req.parentIdentity Operation.retrieveMany) then
    HandlerStep.notAllowed (makeErrorResponse
      (GoError.elem [⟨"Not allowed",
        "RetrieveMany operation not allowed on " ++ req.identity.category, "bahamut", 405⟩])
      newResponse)
  else HandlerStep.dispatch

/-- The relationship gate of `handleRetrieve`, src/unnamed/part_002
lines 188-225. -/
def handleRetrieve (reg : RelationshipsRegistry) (req : Request) : HandlerStep :=
  if !(isOperationAllowed reg req.identity req.parentIdentity Operation.retrieve) then
    HandlerStep.notAllowed (makeErrorResponse
      (GoError.elem [⟨"Not allowed",
        "Retrieve operation not allowed on " ++ req.identity.name, "bahamut", 405⟩])
      newResponse)
  else HandlerStep.dispatch

/-- The relationship gate of `handleCreate`, src/unnamed/part_002
lines 227-268. -/
def handleCreate (reg : RelationshipsRegistry) (req : Request) : HandlerStep :=
  if !(isOperationAllowed reg req.identity req.parentIdentity Operation.create) then
    HandlerStep.notAllowed (makeErrorResponse
      (GoError.elem [⟨"Not allowed",
        "Create operation not allowed on " ++ req.identity.name, "bahamut", 405⟩])
      newResponse)
  else HandlerStep.dispatch

/-- The relationship gate of `handleUpdate`, src/unnamed/part_002
lines 270-311. -/
def handleUpdate (reg : RelationshipsRegistry) (req : Request) : HandlerStep :=
  if !(isOperationAllowed reg req.identity req.parentIdentity Operation.update) then
    HandlerStep.notAllowed (makeErrorResponse
      (GoError.elem [⟨"Not allowed",
        "Update operation not allowed on " ++ req.identity.name, "bahamut", 405⟩])
      newResponse)
  else HandlerStep.dispatch

/-- The relationship gate of `handleDelete`, src/unnamed/part_002
lines 313-352. -/
def handleDelete (reg : RelationshipsRegistry) (req : Request) : HandlerStep :=
  if !(isOperationAllowed reg req.identity req.parentIdentity Operation.delete) then
    HandlerStep.notAllowed (makeErrorResponse
      (GoError.elem [⟨"Not allowed",
        "Delete operation not allowed on " ++ req.identity.name, "bahamut", 405⟩])
      newResponse)
  else HandlerStep.dispatch

/-- The relationship gate of `handleInfo`, src/unnamed/part_002
lines 354-391. -/
def handleInfo (reg : RelationshipsRegistry) (req : Request) : HandlerStep :=
  if !(isOperationAllowed reg req.identity req.parentIdentity Operation.info) then
    HandlerStep.notAllowed (makeErrorResponse
      (GoError.elem [⟨"Not allowed",
        "Info operation not allowed on " ++ req.identity.category, "bahamut", 405⟩])
      newResponse)
  else HandlerStep.dispatch

/-- The relationship gate of `handlePatch`, src/unnamed/part_002
lines 393-434: the 405 description uses the identity's Category. -/
def handlePatch (reg : RelationshipsRegistry) (req : Request) : HandlerStep :=
  if !(isOperationAllowed reg req.identity req.parentIdentity Operation.patch) then
    HandlerStep.notAllowed (makeErrorResponse
      (GoError.elem [⟨"Not allowed",
        "Patch operation not allowed on " ++ req.identity.category, "bahamut", 405⟩])
      newResponse)
  else HandlerStep.dispatch

/-- Routing from operation kind to the HTTP handler shell. -/
def httpHandle : Operation → RelationshipsRegistry → Request → HandlerStep
  | Operation.retrieveMany => handleRetrieveMany
  | Operation.retrieve => handleRetrieve
  | Operation.create => handleCreate
  | Operation.update => handleUpdate
  | Operation.delete => handleDelete
  | Operation.info => handleInfo
  | Operation.patch => handlePatch

/-- Modelled from the spec: the older elemental relationship query API used
by the WebSocket session (`IsXAllowed`, library code not under src/):
RetrieveMany, Create, Info and Patch are checked against a parent;
Retrieve, Update and Delete against the identity alone. -/
structure WSRelationshipsRegistry where
  retrieveManyAllowed : Identity → Identity → Bool
  retrieveAllowed : Identity → Bool
  createAllowed : Identity → Identity → Bool
  updateAllowed : Identity → Bool
  deleteAllowed : Identity → Bool
  infoAllowed : Identity → Identity → Bool
  patchAllowed : Identity → Identity → Bool

/-- A WebSocket per-request handler either writes a framed error on the
socket without invoking the dispatcher, or runs the dispatcher. -/
inductive WSHandlerStep where
  | wsError (e : ElementalError)
  | wsDispatch
  deriving DecidableEq

/-- The parent-or-Root substitution of the WS handlers. -/
def wsParentOrRoot (req : Request) : Identity :=
  if req.parentIdentity.isEmpty then rootIdentity else req.parentIdentity

/-- `wsAPISession.handleRetrieveMany`, src/unnamed/part_003 lines 314-351. -/
def wsHandleRetrieveMany (reg : WSRelationshipsRegistry) (req : Request) : WSHandlerStep :=
  if !(reg.retrieveManyAllowed req.identity (wsParentOrRoot req)) then
    WSHandlerStep.wsError ⟨"Not allowed",
      "RetrieveMany operation not allowed on " ++ req.identity.category, "bahamut", 405⟩
  else WSHandlerStep.wsDispatch

/-- `wsAPISession.handleRetrieve`, src/unnamed/part_003 lines 353-385. -/
def wsHandleRetrieve (reg : WSRelationshipsRegistry) (req : Request) : WSHandlerStep :=
  if !(reg.retrieveAllowed req.identity) || !req.parentIdentity.isEmpty then
    WSHandlerStep.wsError ⟨"Not allowed",
      "Retrieve operation not allowed on " ++ req.identity.name, "bahamut", 405⟩
  else WSHandlerStep.wsDispatch

/-- `wsAPISession.handleCreate`, src/unnamed/part_003 lines 387-426. -/
def wsHandleCreate (reg : WSRelationshipsRegistry) (req : Request) : WSHandlerStep :=
  if !(reg.createAllowed req.identity (wsParentOrRoot req)) then
    WSHandlerStep.wsError ⟨"Not allowed",
      "Create operation not allowed on " ++ req.identity.name, "bahamut", 405⟩
  else WSHandlerStep.wsDispatch

/-- `wsAPISession.handleUpdate`, src/unnamed/part_003 lines 428-462. -/
def wsHandleUpdate (reg : WSRelationshipsRegistry) (req : Request) : WSHandlerStep :=
  if !(reg.updateAllowed req.identity) || !req.parentIdentity.isEmpty then
    WSHandlerStep.wsError ⟨"Not allowed",
      "Update operation not allowed on " ++ req.identity.name, "bahamut", 405⟩
  else WSHandlerStep.wsDispatch

/-- `wsAPISession.handleDelete`, src/unnamed/part_003 lines 464-498. -/
def wsHandleDelete (reg : WSRelationshipsRegistry) (req : Request) : WSHandlerStep :=
  if !(reg.deleteAllowed req.identity) || !req.parentIdentity.isEmpty then
    WSHandlerStep.wsError ⟨"Not allowed",
      "Delete operation not allowed on " ++ req.identity.name, "bahamut", 405⟩
  else WSHandlerStep.wsDispatch

/-- `wsAPISession.handleInfo`, src/unnamed/part_003 lines 500-535. -/
def wsHandleInfo (reg : WSRelationshipsRegistry) (req : Request) : WSHandlerStep :=
  if !(reg.infoAllowed req.identity (wsParentOrRoot req)) then
    WSHandlerStep.wsError ⟨"Not allowed",
      "Info operation not allowed on " ++ req.identity.category, "bahamut", 405⟩
  else WSHandlerStep.wsDispatch

/-- `wsAPISession.handlePatch`, src/unnamed/part_003 lines 537-555: note
the 405 description uses the identity's Name, not its Category. -/
def wsHandlePatch (reg : WSRelationshipsRegistry) (req : Request) : WSHandlerStep :=
  if !(reg.patchAllowed req.identity (wsParentOrRoot req)) then
    WSHandlerStep.wsError ⟨"Not allowed",
      "Patch operation not allowed on " ++ req.identity.name, "bahamut", 405⟩
  else WSHandlerStep.wsDispatch

/-- Routing from operation kind to the WS handler, as the listen loop's
switch (src/unnamed/part_003 lines 261-283). -/
def wsHandle : Operation → WSRelationshipsRegistry → Request → WSHandlerStep
  | Operation.retrieveMany => wsHandleRetrieveMany
  | Operation.retrieve => wsHandleRetrieve
  | Operation.create => wsHandleCreate
  | Operation.update => wsHandleUpdate
  | Operation.delete => wsHandleDelete
  | Operation.info => wsHandleInfo
  | Operation.patch => wsHandlePatch

/-- Whether the WS relationship registry forbids the operation, exactly as
each WS handler queries it (for Retrieve, Update and Delete the query takes
no parent). -/
def wsRegistryForbids (reg : WSRelationshipsRegistry) (op : Operation) (req : Request) : Bool :=
  match op with
  | Operation.retrieveMany => !(reg.retrieveManyAllowed req.identity (wsParentOrRoot req))
  | Operation.retrieve => !(reg.retrieveAllowed req.identity)
  | Operation.create => !(reg.createAllowed req.identity (wsParentOrRoot req))
  | Operation.update => !(reg.updateAllowed req.identity)
  | Operation.delete => !(reg.deleteAllowed req.identity)
  | Operation.info => !(reg.infoAllowed req.identity (wsParentOrRoot req))
  | Operation.patch => !(reg.patchAllowed req.identity (wsParentOrRoot req))

/-- The 405 description the claim states: Category for RetrieveMany, Info
and Patch, Name for Retrieve, Create, Update and Delete (this follows the
spec's words, for comparison with the handlers). -/
def claimedNotAllowedMessage (op : Operation) (i : Identity) : String :=
  match op with
  | Operation.retrieveMany => "RetrieveMany operation not allowed on " ++ i.category
  | Operation.retrieve => "Retrieve operation not allowed on " ++ i.name
  | Operation.create => "Create operation not allowed on " ++ i.name
  | Operation.update => "Update operation not allowed on " ++ i.name
  | Operation.delete => "Delete operation not allowed on " ++ i.name
  | Operation.info => "Info operation not allowed on " ++ i.category
  | Operation.patch => "Patch operation not allowed on " ++ i.category

/-- The amended WS description: as claimed except Patch, whose WS handler
uses the identity's Name. -/
def wsNotAllowedMessageAmended (op : Operation) (i : Identity) : String :=
  match op with
  | Operation.patch => "Patch operation not allowed on " ++ i.name
  | _ => claimedNotAllowedMessage op i

/-- Modelled from the spec: the push server control loop state (the push
server implementation is not under src/, only its tests): the live session
identifiers and the number of sessions the optional SessionHandler
currently sees (started minus stopped). -/
structure PushServerState where
  sessions : List String
  handlerSessions : Nat
  deriving Repr, DecidableEq

/-- A push server with no registered session. -/
def emptyPushServer : PushServerState := ⟨[], 0⟩

/-- Modelled from the spec: `register s` adds the session to the set and
notifies the SessionHandler; a session already registered is left alone so
that every live session appears exactly once (invariant I1, fixture
TestSession_registerSession). -/
def registerSession (st : PushServerState) (s : String) : PushServerState :=
  if s ∈ st.sessions then st
  else { sessions := s :: st.sessions, handlerSessions := st.handlerSessions + 1 }

/-- Modelled from the spec: `unregister s` removes the session from the set
if present and notifies the SessionHandler; unregistering an unknown
session is a no-op (§4.3). -/
def unregisterSession (st : PushServerState) (s : String) : PushServerState :=
  if s ∈ st.sessions then
    { sessions := st.sessions.erase s, handlerSessions := st.handlerSessions - 1 }
  else st

/-- The server's processor registry, keyed by identity Name
(src/unnamed/part_003 lines 37-45); processors are opaque values. -/
abbrev ProcessorMap (π : Type) : Type := List (String × π)

/-- `server.RegisterProcessor`, src/unnamed/part_003 lines 75-84: an
identity whose Name already has a processor is rejected with an error and
the registry is left unchanged; otherwise the processor is stored under
the Name. -/
def RegisterProcessor {π : Type} (procs : ProcessorMap π) (processor : π)
    (ident : Identity) : Option String × ProcessorMap π :=
  if (procs.lookup ident.name).isSome then
    (some ("identity " ++ ident.name ++ " already has a registered processor"), procs)
  else
    (none, (ident.name, processor) :: procs)

/-- `server.ProcessorForIdentity`, src/unnamed/part_003 lines 97-104. -/
def ProcessorForIdentity {π : Type} (procs : ProcessorMap π) (ident : Identity) :
    Except String π :=
  match procs.lookup ident.name with
  | some p => Except.ok p
  | none => Except.error ("no registered processor for identity " ++ ident.name)

/-- Encoded bytes on the bus. -/
abbrev Bytes : Type := List Nat

/-- The NATS client operations reached only after the nil-client and
encoding guards of Publish (src/pubsub_nats.go): plain publish returns an
optional error; request/response returns the reply message. -/
structure NatsClient where
  publishErr : String → Bytes → Option String
  requestReply : String → Bytes → Except String String

/-- A publication: a topic (the payload reaches Publish through the
encoding, modelled as a parameter). -/
structure Publication where
  topic : String
  deriving Repr, DecidableEq

/-- The options applied to a natsPublishConfig. -/
structure NatsPublishConfig where
  replyValidator : Option (String → Option String)

/-- `natsPubSub.Publish`, src/pubsub_nats.go lines 58-84, parameterized by
the result of the elemental msgpack encoding (library code not under
src/); the second component records every message handed to the NATS
client, so `[]` means nothing was published to the bus. -/
def natsPublish (client : Option NatsClient) (encodeResult : Except String Bytes)
    (cfg : NatsPublishConfig) (publication : Publication) :
    Option String × List (String × Bytes) :=
  match client with
  | none => (some "not connected to nats. messages dropped", [])
  | some cl =>
    match encodeResult with
    | Except.error e => (some ("unable to encode publication. message dropped: " ++ e), [])
    | Except.ok data =>
      match cfg.replyValidator with
      | none => (cl.publishErr publication.topic data, [(publication.topic, data)])
      | some validator =>
        match cl.requestReply publication.topic data with
        | Except.error e => (some e, [(publication.topic, data)])
        | Except.ok msg => (validator msg, [(publication.topic, data)])

/-! Concrete fixtures mirroring the test suite. -/

/-- testmodel.UserIdentity: name "user", category "users". -/
def userIdentity : Identity := ⟨"user", "users"⟩

/-- A bare request for the given operation on the user identity under Root. -/
def reqUserOp (op : Operation) : Request :=
  { identity := userIdentity, parentIdentity := rootIdentity, operation := op,
    headers := [], version := 0 }

/-- A registry forbidding every (operation, child, parent) triple. -/
def regAllFalse : RelationshipsRegistry := fun _ _ _ => false

/-- A WS registry forbidding everything. -/
def wsregAllFalse : WSRelationshipsRegistry :=
  ⟨fun _ _ => false, fun _ => false, fun _ _ => false, fun _ => false,
   fun _ => false, fun _ _ => false, fun _ _ => false⟩

/-! Theorems -/

/-- C1 counterexample: on the WebSocket session path, the Patch 405
description is built from the identity's Name ("user"), not its Category
("users") as the claim states. -/
theorem c1_ws_patch_counterexample :
    wsHandle Operation.patch wsregAllFalse (reqUserOp Operation.patch) =
      WSHandlerStep.wsError ⟨"Not allowed", "Patch operation not allowed on user",
        "bahamut", 405⟩ ∧
    "Patch operation not allowed on user" ≠
      "Patch operation not allowed on " ++ (reqUserOp Operation.patch).identity.category := by
  exact ⟨rfl, by decide⟩

/-- C1 (amended): for every operation, identity and parent the registry
forbids, the handler shell returns the 405 response with the canonical
description and never reaches the dispatcher, on the HTTP path (Category
for RetrieveMany/Info/Patch, Name otherwise) and on the WebSocket path
(Category for RetrieveMany/Info, Name for the rest — including Patch). -/
theorem c1_relationship_gate_amended (op : Operation) (reg : RelationshipsRegistry)
    (wsreg : WSRelationshipsRegistry) (req : Request)
    (hhttp : reg op req.identity req.parentIdentity = false)
    (hws : wsRegistryForbids wsreg op req = true) :
    httpHandle op reg req = HandlerStep.notAllowed (some { newResponse with
      statusCode := 405,
      data := encodeErrorList [⟨"Not allowed", claimedNotAllowedMessage op req.identity,
        "bahamut", 405⟩] }) ∧
    wsHandle op wsreg req = WSHandlerStep.wsError ⟨"Not allowed",
      wsNotAllowedMessageAmended op req.identity, "bahamut", 405⟩ := by
  cases op <;>
    simp_all [httpHandle, wsHandle, handleRetrieveMany, handleRetrieve, handleCreate,
      handleUpdate, handleDelete, handleInfo, handlePatch,
      wsHandleRetrieveMany, wsHandleRetrieve, wsHandleCreate, wsHandleUpdate,
      wsHandleDelete, wsHandleInfo, wsHandlePatch, wsRegistryForbids,
      isOperationAllowed, makeErrorResponse, processError, errorsCode,
      claimedNotAllowedMessage, wsNotAllowedMessageAmended, newResponse]

/-- C1 witness: the amended gate at a concrete forbidden input
(RetrieveMany on user under Root, everything forbidden). -/
theorem c1_relationship_gate_amended_witness :
    regAllFalse Operation.retrieveMany (reqUserOp Operation.retrieveMany).identity
        (reqUserOp Operation.retrieveMany).parentIdentity = false ∧
    wsRegistryForbids wsregAllFalse Operation.retrieveMany (reqUserOp Operation.retrieveMany)
        = true ∧
    (httpHandle Operation.retrieveMany regAllFalse (reqUserOp Operation.retrieveMany) =
      HandlerStep.notAllowed (some { newResponse with
        statusCode := 405,
        data := encodeErrorList [⟨"Not allowed",
          claimedNotAllowedMessage Operation.retrieveMany
            (reqUserOp Operation.retrieveMany).identity, "bahamut", 405⟩] }) ∧
    wsHandle Operation.retrieveMany wsregAllFalse (reqUserOp Operation.retrieveMany) =
      WSHandlerStep.wsError ⟨"Not allowed",
        wsNotAllowedMessageAmended Operation.retrieveMany
          (reqUserOp Operation.retrieveMany).identity, "bahamut", 405⟩) :=
  ⟨rfl, rfl, c1_relationship_gate_amended Operation.retrieveMany regAllFalse wsregAllFalse
    (reqUserOp Operation.retrieveMany) rfl rfl⟩

/-- A full fixture list: ID "xxx", name "the name". -/
def list1full : SparseList := ⟨some "xxx", some "the name", some " the description"⟩

/-- A Context carrying a redirect, a non-zero status override and no output
data. -/
def ctx2cex : BContext :=
  { request := reqUserOp Operation.create, statusCode := 201, count := 0,
    messages := [], outputData := none, redirect := "http://ici" }

/-- C2 counterexample: with a redirect set, makeResponse returns before any
status derivation, so a Context with nil outputData (and a 201 override)
yields status 0, not the claimed 204. -/
theorem c2_redirect_counterexample :
    (makeResponse ctx2cex newResponse none).map (fun p => p.1.statusCode) = Except.ok 0 ∧
    (0 : Nat) ≠ 204 :=
  ⟨rfl, by decide⟩

/-- C2 (amended): provided the Context's redirect is empty, a zero
statusCode derives the status from the operation (Create 201, Info 204,
otherwise 200) when output data is present, and nil output data forces 204
regardless of any override. -/
theorem c2_default_status_amended (ctx : BContext) (response : Response)
    (cleaner : Option TraceCleaner) (r : Response) (fields : List LogField)
    (hredir : ctx.redirect = "")
    (hrun : makeResponse ctx response cleaner = Except.ok (r, fields)) :
    (ctx.outputData = none → r.statusCode = 204) ∧
    (ctx.statusCode = 0 → ctx.outputData ≠ none →
      r.statusCode = (match ctx.request.operation with
        | Operation.create => 201
        | Operation.info => 204
        | _ => 200)) := by
  constructor
  · intro hod
    simp [makeResponse, hredir, hod] at hrun
    rcases hrun with ⟨hr, -⟩
    subst hr
    rfl
  · intro h0 hod
    cases hod2 : ctx.outputData with
    | none => exact absurd hod2 hod
    | some od =>
      cases henc : encodeOutputData
          (if (headerValues ctx.request "X-Fields").length > 0 then
            sparsifyOutput (headerValues ctx.request "X-Fields") od
          else od) with
      | none =>
        simp [makeResponse, hredir, hod2, henc] at hrun
      | some body =>
        simp [makeResponse, hredir, hod2, henc, h0] at hrun
        rcases hrun with ⟨hr, -⟩
        subst hr
        cases hop : ctx.request.operation <;>
          simp [hop, apply_ite (Response.statusCode)]

/-- The encoded full fixture list. -/
def body2w : String :=
  "\x7b\"ID\":\"xxx\",\"name\":\"the name\",\"description\":\" the description\"\x7d"

/-- A redirect-free Create context with output data and no override. -/
def ctx2w : BContext :=
  { request := reqUserOp Operation.create, statusCode := 0, count := 0,
    messages := [], outputData := some (OutputData.single list1full), redirect := "" }

/-- The response makeResponse produces on ctx2w. -/
def r2w : Response := ⟨201, 0, [], "", body2w⟩

/-- The span fields makeResponse produces on ctx2w. -/
def f2w : List LogField := [("response", body2w)]

/-- C2 witness: the amended statement at a concrete Create context. -/
theorem c2_default_status_amended_witness :
    ctx2w.redirect = "" ∧
    makeResponse ctx2w newResponse none = Except.ok (r2w, f2w) ∧
    ((ctx2w.outputData = none → r2w.statusCode = 204) ∧
     (ctx2w.statusCode = 0 → ctx2w.outputData ≠ none → r2w.statusCode = 201)) :=
  ⟨rfl, rfl, c2_default_status_amended ctx2w newResponse none r2w f2w rfl rfl⟩

/-- C3: when the Context is cancelled before the dispatcher completes, the
dispatcher's result is never consulted and runDispatcher returns nil for a
plain cancellation and a 408-shaped error response for a deadline
exceeded; any dispatcher error other than a plain cancellation yields the
encoded error response. -/
theorem c3_run_dispatcher_cancellation (ctx : BContext) (r : Response)
    (cleaner : Option TraceCleaner) (err : GoError)
    (h : err ≠ GoError.contextCanceled) :
    runDispatcher ctx r (DispatcherRace.cancelledFirst GoError.contextCanceled) cleaner
        = Except.ok none ∧
    runDispatcher ctx r (DispatcherRace.cancelledFirst GoError.contextDeadlineExceeded) cleaner
        = Except.ok (some { r with
            statusCode := 408,
            data := encodeErrorList
              [⟨"Timeout", "context deadline exceeded", "bahamut", 408⟩] }) ∧
    runDispatcher ctx r (DispatcherRace.completedFirst (some err)) cleaner
        = Except.ok (some { r with
            statusCode := errorsCode (processError err),
            data := encodeErrorList (processError err) }) := by
  refine ⟨rfl, rfl, ?_⟩
  simp [runDispatcher, makeErrorResponse, h]

/-- C3 witness: the cancellation contract at a concrete response and the
plain dispatcher error "paf" (fixture TestHandlers_makeErrorResponse). -/
theorem c3_run_dispatcher_cancellation_witness :
    GoError.plain "paf" ≠ GoError.contextCanceled ∧
    (runDispatcher ctx2w newResponse
        (DispatcherRace.cancelledFirst GoError.contextCanceled) none = Except.ok none ∧
     runDispatcher ctx2w newResponse
        (DispatcherRace.cancelledFirst GoError.contextDeadlineExceeded) none
        = Except.ok (some { newResponse with
            statusCode := 408,
            data := encodeErrorList
              [⟨"Timeout", "context deadline exceeded", "bahamut", 408⟩] }) ∧
     runDispatcher ctx2w newResponse
        (DispatcherRace.completedFirst (some (GoError.plain "paf"))) none
        = Except.ok (some { newResponse with
            statusCode := errorsCode (processError (GoError.plain "paf")),
            data := encodeErrorList (processError (GoError.plain "paf")) })) :=
  ⟨by decide, c3_run_dispatcher_cancellation ctx2w newResponse none
    (GoError.plain "paf") (by decide)⟩

/-- C4: a panic value v trapped with panic recovery enabled surfaces as a
500 error whose description is the string form of v; with recovery
disabled the panic escapes the task. -/
theorem c4_panic_recovery (v : String) :
    handleEventualPanic (some v) false =
      Except.ok (some ⟨"Internal Server Error", v, "bahamut", 500⟩) ∧
    (handleEventualPanic (some v) false).map (fun o => o.map ElementalError.description)
      = Except.ok (some v) ∧
    handleEventualPanic (some v) true = Except.error v :=
  ⟨rfl, rfl, rfl⟩

/-- C4 witness: the panic contract at the test fixture's panic value. -/
theorem c4_panic_recovery_witness :
    handleEventualPanic (some "Noooooooooooooooooo") false =
      Except.ok (some ⟨"Internal Server Error", "Noooooooooooooooooo", "bahamut", 500⟩) ∧
    (handleEventualPanic (some "Noooooooooooooooooo") false).map
        (fun o => o.map ElementalError.description)
      = Except.ok (some "Noooooooooooooooooo") ∧
    handleEventualPanic (some "Noooooooooooooooooo") true =
      Except.error "Noooooooooooooooooo" :=
  c4_panic_recovery "Noooooooooooooooooo"

/-- The second full fixture list: ID "xxx2", name "the name2". -/
def list2full : SparseList := ⟨some "xxx2", some "the name2", some " the description2"⟩

/-- A request carrying the multi-valued header X-Fields: name, ID. -/
def reqXFields : Request :=
  { identity := ⟨"list", "lists"⟩, parentIdentity := rootIdentity,
    operation := Operation.retrieve, headers := [("X-Fields", ["name", "ID"])],
    version := 0 }

/-- The context of the two-element sparse projection fixture. -/
def ctx5 : BContext :=
  { request := reqXFields, statusCode := 0, count := 0, messages := [],
    outputData := some (OutputData.list [list1full, list2full]), redirect := "" }

/-- C5: the sparse projection keeps exactly the listed attributes (those the
object carries), and on the two-identifiable fixture with X-Fields name, ID
the encoded body is exactly the claimed JSON. -/
theorem c5_sparse_projection :
    (∀ (requested : List String) (l : SparseList),
      (l.toSparse requested).keys = l.keys.filter (fun a => requested.contains a)) ∧
    (makeResponse ctx5 newResponse none).map (fun p => p.1.data) =
      Except.ok
        "[\x7b\"ID\":\"xxx\",\"name\":\"the name\"\x7d,\x7b\"ID\":\"xxx2\",\"name\":\"the name2\"\x7d]" := by
  constructor
  · intro requested l
    obtain ⟨i, n, d⟩ := l
    by_cases h1 : "ID" ∈ requested <;>
    by_cases h2 : "name" ∈ requested <;>
    by_cases h3 : "description" ∈ requested <;>
    cases i <;> cases n <;> cases d <;>
      simp [SparseList.toSparse, SparseList.keys, h1, h2, h3]
  · rfl

/-- C6: a non-empty redirect on the Context is copied onto the Response and
makeResponse returns immediately: no status derivation, no count or
message copying, no body encoding, no span fields, every other Response
field unchanged. -/
theorem c6_redirect_frame (ctx : BContext) (response : Response)
    (cleaner : Option TraceCleaner) (h : ctx.redirect ≠ "") :
    makeResponse ctx response cleaner =
      Except.ok ({ response with redirect := ctx.redirect }, []) := by
  simp [makeResponse, h]

/-- The redirect fixture context. -/
def ctx6 : BContext :=
  { request := reqUserOp Operation.retrieve, statusCode := 0, count := 0,
    messages := [], outputData := none, redirect := "http://ici" }

/-- C6 witness: the redirect contract at the "http://ici" fixture. -/
theorem c6_redirect_frame_witness :
    ctx6.redirect ≠ "" ∧
    makeResponse ctx6 newResponse none =
      Except.ok ({ newResponse with redirect := "http://ici" }, []) :=
  ⟨by decide, c6_redirect_frame ctx6 newResponse none (by decide)⟩

/-- The status/total/messages stage of makeResponse: the response right
before body encoding (the value Go leaves in `response` at line 85). -/
def shapedResponse (ctx : BContext) (response : Response) : Response :=
  let r1 : Response := { response with statusCode :=
    if ctx.statusCode = 0 then
      match ctx.request.operation with
      | Operation.create => 201
      | Operation.info => 204
      | _ => 200
    else ctx.statusCode }
  let isListOp : Bool :=
    ctx.request.operation == Operation.retrieveMany || ctx.request.operation == Operation.info
  let r2 := if isListOp then { r1 with total := ctx.count } else r1
  if ctx.messages.length > 0 then { r2 with messages := ctx.messages } else r2

/-- The span fields accumulated before the response field. -/
def shapedFields (ctx : BContext) : List LogField :=
  let isListOp : Bool :=
    ctx.request.operation == Operation.retrieveMany || ctx.request.operation == Operation.info
  let f2 : List LogField := if isListOp then [("count-total", toString ctx.count)] else []
  if ctx.messages.length > 0 then f2 ++ [("messages", renderStringList ctx.messages)] else f2

/-- Characterization of makeResponse on the successful encoding path. -/
theorem makeResponse_ok_of_encode (ctx : BContext) (response : Response)
    (cleaner : Option TraceCleaner) (od : OutputData) (body : String)
    (hredir : ctx.redirect = "")
    (hod : ctx.outputData = some od)
    (henc : encodeOutputData
        (if (headerValues ctx.request "X-Fields").length > 0 then
          sparsifyOutput (headerValues ctx.request "X-Fields") od
        else od) = some body) :
    makeResponse ctx response cleaner =
      Except.ok ({ shapedResponse ctx response with data := body },
        shapedFields ctx ++ [("response",
          match cleaner with
          | some c => c ctx.request.identity body
          | none => body)]) := by
  have hne : ¬ (ctx.redirect ≠ "") := fun hc => hc hredir
  simp only [makeResponse, hod, henc, if_neg hne]
  rfl

/-- C7: with a trace cleaner configured and the output encodable, the
Response keeps the unredacted encoding as its body while the span's
response field carries the cleaner's output; the cleaner never alters
Response.Data (the cleaned and uncleaned runs produce the same Response). -/
theorem c7_trace_cleaner (ctx : BContext) (response : Response) (c : TraceCleaner)
    (od : OutputData) (body : String)
    (hredir : ctx.redirect = "")
    (hod : ctx.outputData = some od)
    (henc : encodeOutputData
        (if (headerValues ctx.request "X-Fields").length > 0 then
          sparsifyOutput (headerValues ctx.request "X-Fields") od
        else od) = some body) :
    (makeResponse ctx response (some c)).map (fun p => p.1) =
      (makeResponse ctx response none).map (fun p => p.1) ∧
    (makeResponse ctx response (some c)).map (fun p => p.2.getLast?) =
      Except.ok (some ("response", c ctx.request.identity body)) ∧
    (makeResponse ctx response (some c)).map (fun p => p.1.data) = Except.ok body := by
  rw [makeResponse_ok_of_encode ctx response (some c) od body hredir hod henc,
    makeResponse_ok_of_encode ctx response none od body hredir hod henc]
  refine ⟨rfl, ?_, rfl⟩
  simp only [Except.map]
  rw [List.getLast?_append_cons]
  rfl

/-- The request of the single-identifiable cleaner fixture. -/
def req7 : Request :=
  { identity := ⟨"list", "lists"⟩, parentIdentity := rootIdentity,
    operation := Operation.retrieve, headers := [("X-Fields", ["name", "ID"])],
    version := 0 }

/-- The context of the cleaner fixture. -/
def ctx7 : BContext :=
  { request := req7, statusCode := 0, count := 0, messages := [],
    outputData := some (OutputData.single list1full), redirect := "" }

/-- The cleaner of the fixture, returning "modified". -/
def cleaner7 : TraceCleaner := fun _ _ => "modified"

/-- The unredacted encoding of the projected fixture output. -/
def body7 : String := "\x7b\"ID\":\"xxx\",\"name\":\"the name\"\x7d"

/-- C7 witness: the cleaner contract at the "modified" fixture. -/
theorem c7_trace_cleaner_witness :
    ctx7.redirect = "" ∧
    ctx7.outputData = some (OutputData.single list1full) ∧
    encodeOutputData
        (if (headerValues ctx7.request "X-Fields").length > 0 then
          sparsifyOutput (headerValues ctx7.request "X-Fields") (OutputData.single list1full)
        else OutputData.single list1full) = some body7 ∧
    ((makeResponse ctx7 newResponse (some cleaner7)).map (fun p => p.1) =
        (makeResponse ctx7 newResponse none).map (fun p => p.1) ∧
     (makeResponse ctx7 newResponse (some cleaner7)).map (fun p => p.2.getLast?) =
        Except.ok (some ("response", "modified")) ∧
     (makeResponse ctx7 newResponse (some cleaner7)).map (fun p => p.1.data) =
        Except.ok body7) :=
  ⟨rfl, rfl, rfl,
    c7_trace_cleaner ctx7 newResponse cleaner7 (OutputData.single list1full) body7 rfl rfl rfl⟩

/-- C8: registering a session twice leaves exactly one entry for it (and
the session handler sees one session, starting from an empty server);
unregistering a session that is not registered — including a second
unregister of the same session — is a no-op. -/
theorem c8_push_registration (st : PushServerState) (s : String)
    (hnodup : st.sessions.Nodup) :
    registerSession (registerSession st s) s = registerSession st s ∧
    (registerSession st s).sessions.count s = 1 ∧
    (registerSession (registerSession emptyPushServer s) s).handlerSessions = 1 ∧
    (s ∉ st.sessions → unregisterSession st s = st) ∧
    unregisterSession (unregisterSession st s) s = unregisterSession st s := by
  refine ⟨?_, ?_, ?_, ?_, ?_⟩
  · by_cases hm : s ∈ st.sessions <;> simp [registerSession, hm]
  · by_cases hm : s ∈ st.sessions
    · simp only [registerSession, if_pos hm]
      exact List.count_eq_one_of_mem hnodup hm
    · simp only [registerSession, if_neg hm]
      simp [List.count_cons_self, List.count_eq_zero_of_not_mem hm]
  · simp [registerSession, emptyPushServer]
  · intro hm
    simp [unregisterSession, hm]
  · by_cases hm : s ∈ st.sessions
    · have hcnt : st.sessions.count s = 1 := List.count_eq_one_of_mem hnodup hm
      have h0 : (st.sessions.erase s).count s = 0 := by
        rw [List.count_erase_self, hcnt]
      have hnm : s ∉ st.sessions.erase s := by
        rw [← List.count_pos_iff]
        omega
      simp [unregisterSession, hm, hnm]
    · simp [unregisterSession, hm]

/-- C8 witness: the registration contract for session "s1" on an empty
push server. -/
theorem c8_push_registration_witness :
    ((emptyPushServer).sessions.Nodup) ∧
    (registerSession (registerSession emptyPushServer "s1") "s1" =
        registerSession emptyPushServer "s1" ∧
      (registerSession emptyPushServer "s1").sessions.count "s1" = 1 ∧
      (registerSession (registerSession emptyPushServer "s1") "s1").handlerSessions = 1 ∧
      ("s1" ∉ emptyPushServer.sessions → unregisterSession emptyPushServer "s1" =
        emptyPushServer) ∧
      unregisterSession (unregisterSession emptyPushServer "s1") "s1" =
        unregisterSession emptyPushServer "s1") :=
  ⟨List.nodup_nil, c8_push_registration emptyPushServer "s1" List.nodup_nil⟩

/-- C9: RegisterProcessor errors exactly when a processor already exists
under the identity's Name, leaving the registry unchanged on error; on
success ProcessorForIdentity returns the registered processor. -/
theorem c9_register_processor {π : Type} (procs : ProcessorMap π) (processor : π)
    (ident : Identity) :
    ((RegisterProcessor procs processor ident).1 ≠ none ↔
      (procs.lookup ident.name).isSome = true) ∧
    ((procs.lookup ident.name).isSome = true →
      (RegisterProcessor procs processor ident).2 = procs) ∧
    (procs.lookup ident.name = none →
      (RegisterProcessor procs processor ident).1 = none ∧
      ProcessorForIdentity (RegisterProcessor procs processor ident).2 ident =
        Except.ok processor) := by
  refine ⟨?_, ?_, ?_⟩
  · by_cases h : (procs.lookup ident.name).isSome <;>
      simp [RegisterProcessor, h]
  · intro h
    simp [RegisterProcessor, h]
  · intro h
    simp [RegisterProcessor, ProcessorForIdentity, h]

/-- C9 witness: registering a processor for the user identity on an empty
registry, then looking it up. -/
theorem c9_register_processor_witness :
    (((RegisterProcessor ([] : ProcessorMap Nat) 7 userIdentity).1 ≠ none ↔
        (([] : ProcessorMap Nat).lookup userIdentity.name).isSome = true) ∧
      ((([] : ProcessorMap Nat).lookup userIdentity.name).isSome = true →
        (RegisterProcessor ([] : ProcessorMap Nat) 7 userIdentity).2 = []) ∧
      (([] : ProcessorMap Nat).lookup userIdentity.name = none →
        (RegisterProcessor ([] : ProcessorMap Nat) 7 userIdentity).1 = none ∧
        ProcessorForIdentity (RegisterProcessor ([] : ProcessorMap Nat) 7 userIdentity).2
          userIdentity = Except.ok 7)) :=
  c9_register_processor [] 7 userIdentity

/-- C10: Publish on a not-yet-connected NATS adapter returns an error and
hands nothing to the bus; an encoding failure likewise errors without
publishing. -/
theorem c10_nats_publish_guard (encodeResult : Except String Bytes)
    (cfg : NatsPublishConfig) (publication : Publication) (cl : NatsClient)
    (e : String) :
    natsPublish none encodeResult cfg publication =
      (some "not connected to nats. messages dropped", []) ∧
    natsPublish (some cl) (Except.error e) cfg publication =
      (some ("unable to encode publication. message dropped: " ++ e), []) :=
  ⟨rfl, rfl⟩

/-- A NATS client whose operations always succeed, for the witness. -/
def okNatsClient : NatsClient :=
  ⟨fun _ _ => none, fun _ _ => Except.ok "ack"⟩

/-- C10 witness: the guards at a concrete topic and encoding error. -/
theorem c10_nats_publish_guard_witness :
    natsPublish none (Except.ok [1, 2]) ⟨none⟩ ⟨"events"⟩ =
      (some "not connected to nats. messages dropped", []) ∧
    natsPublish (some okNatsClient) (Except.error "boom") ⟨none⟩ ⟨"events"⟩ =
      (some ("unable to encode publication. message dropped: " ++ "boom"), []) :=
  c10_nats_publish_guard (Except.ok [1, 2]) ⟨none⟩ ⟨"events"⟩ okNatsClient "boom"

end Bahamut
